import Mathlib

/-!
Verification of the amortization engine of `src/app.py`
(`loan_clearance_schedule`, lines 10-49).

Modelling conventions:
* Python floats are modelled by exact rationals (`ℚ`); the recurrence and all
  derived quantities are translated line by line from the source.
* Python's `round(x, 2)` (round to 2 decimal places, ties to even) is modelled
  by `round2`.
* The payment formula divides by `(1 + r) ^ n - 1`.  When that denominator is
  zero, Python raises `ZeroDivisionError` (float division by zero); this
  fallible step is modelled by returning `none`.
* The `while` loop of lines 25-44 (including the `break` of line 43-44) is
  modelled by the fuel-indexed `simLoop`; the source guard bounds the month
  counter by `tenure_months * 2`, so fuel `tenure_months * 2` runs the loop to
  completion.
-/

namespace RentalLoan

/-- The five scalar inputs of `loan_clearance_schedule` (src/app.py line 10). -/
structure LoanInputs where
  property_value : ℚ
  down_payment_pct : ℚ
  interest_rate : ℚ
  tenure_years : ℕ
  rental_roi : ℚ
deriving DecidableEq

/-- One entry of the yearly `schedule` list (src/app.py lines 37-41). -/
structure Snapshot where
  year : ℕ
  remaining_balance : ℚ
  annual_rental_yield : ℚ
deriving DecidableEq

/-- The mutable state of the simulation loop (src/app.py lines 20-23). -/
structure SimState where
  outstanding : ℚ
  month : ℕ
  total_interest : ℚ
  schedule : List Snapshot
deriving DecidableEq

/-- The tuple returned by `loan_clearance_schedule` (src/app.py line 49). -/
structure LoanResult where
  loan_amount : ℚ
  emi : ℚ
  monthly_rent : ℚ
  years_taken : ℚ
  annual_rental_income : ℚ
  total_interest : ℚ
  schedule : List Snapshot
deriving DecidableEq

/-- Python's round-half-to-even on a rational, to an integer. -/
def roundHalfEven (q : ℚ) : ℤ :=
  if q - ⌊q⌋ < 1 / 2 then ⌊q⌋
  else if 1 / 2 < q - ⌊q⌋ then ⌊q⌋ + 1
  else if ⌊q⌋ % 2 = 0 then ⌊q⌋ else ⌊q⌋ + 1

/-- Python's `round(q, 2)`: round to two decimal places, ties to even. -/
def round2 (q : ℚ) : ℚ := (roundHalfEven (q * 100) : ℚ) / 100

/-- src/app.py line 11: `down_payment = (down_payment_pct / 100) * property_value`. -/
def down_payment (i : LoanInputs) : ℚ := i.down_payment_pct / 100 * i.property_value

/-- src/app.py line 12: `loan_amount = property_value - down_payment`. -/
def loan_amount (i : LoanInputs) : ℚ := i.property_value - down_payment i

/-- src/app.py line 13: `monthly_interest_rate = (interest_rate / 100) / 12`. -/
def monthly_interest_rate (i : LoanInputs) : ℚ := i.interest_rate / 100 / 12

/-- src/app.py line 14: `tenure_months = tenure_years * 12`. -/
def tenure_months (i : LoanInputs) : ℕ := i.tenure_years * 12

/-- The denominator of the payment formula of src/app.py line 16.
Python raises `ZeroDivisionError` when it is zero. -/
def emiDenom (i : LoanInputs) : ℚ :=
  (1 + monthly_interest_rate i) ^ tenure_months i - 1

/-- src/app.py line 16: the level-payment amortization formula
`emi = loan_amount * r * (1+r)^n / ((1+r)^n - 1)`.
(As a total function on `ℚ`; `loan_clearance_schedule` guards the
zero-denominator case, where Python raises, by returning `none`.) -/
def emi (i : LoanInputs) : ℚ :=
  loan_amount i * monthly_interest_rate i * (1 + monthly_interest_rate i) ^ tenure_months i /
    emiDenom i

/-- src/app.py line 17: `annual_rental_income = (rental_roi / 100) * property_value`. -/
def annual_rental_income (i : LoanInputs) : ℚ := i.rental_roi / 100 * i.property_value

/-- src/app.py line 18: `monthly_rent = annual_rental_income / 12`. -/
def monthly_rent (i : LoanInputs) : ℚ := annual_rental_income i / 12

/-- One iteration of the loop body, src/app.py lines 26-41:
increment the month, accrue interest, subtract the principal part of the
payment, subtract a positive rental surplus, clamp the balance at zero, and
append a yearly snapshot when the month is a multiple of 12. -/
def simStep (r e rent annual : ℚ) (s : SimState) : SimState :=
  let month := s.month + 1
  let interest := s.outstanding * r
  let total_interest := s.total_interest + interest
  let principal := e - interest
  let out1 := s.outstanding - principal
  let out2 := if rent - e > 0 then out1 - (rent - e) else out1
  let out3 := max out2 0
  let sched :=
    if month % 12 = 0 then s.schedule ++ [⟨month / 12, out3, annual⟩] else s.schedule
  ⟨out3, month, total_interest, sched⟩

/-- The `while` loop of src/app.py lines 25-44, including the `break` of
lines 43-44, with explicit fuel.  The source guard is
`outstanding > 0 and month < tenure_months * 2`. -/
def simLoop (r e rent annual : ℚ) (bound : ℕ) : ℕ → SimState → SimState
  | 0, s => s
  | fuel + 1, s =>
    if s.outstanding > 0 ∧ s.month < bound then
      let s2 := simStep r e rent annual s
      if s2.outstanding ≤ 0 then s2 else simLoop r e rent annual bound fuel s2
    else s

/-- The initial loop state, src/app.py lines 20-23. -/
def initState (i : LoanInputs) : SimState := ⟨loan_amount i, 0, 0, []⟩

/-- The loop of `loan_clearance_schedule` run on the state after `fuel`
allowed iterations, with the parameters derived from the inputs. -/
def simRun (i : LoanInputs) (fuel : ℕ) : SimState :=
  simLoop (monthly_interest_rate i) (emi i) (monthly_rent i) (annual_rental_income i)
    (tenure_months i * 2) fuel (initState i)

/-- The final loop state: the guard bounds `month` by `tenure_months * 2` and
every iteration increments `month`, so fuel `tenure_months * 2` is enough. -/
def runState (i : LoanInputs) : SimState := simRun i (tenure_months i * 2)

/-- src/app.py line 46: `years_taken = month / 12` (float division). -/
def years_taken (i : LoanInputs) : ℚ := ((runState i).month : ℚ) / 12

/-- src/app.py lines 10-49: the whole of `loan_clearance_schedule`.
Returns `none` exactly when the payment formula divides by zero (where the
Python source raises `ZeroDivisionError`); otherwise the returned tuple of
line 49: `(loan_amount, round(emi, 2), round(monthly_rent, 2),
round(years_taken, 2), annual_rental_income, total_interest, df_schedule)`. -/
def loan_clearance_schedule (i : LoanInputs) : Option LoanResult :=
  if emiDenom i = 0 then none
  else
    some ⟨loan_amount i, round2 (emi i), round2 (monthly_rent i), round2 (years_taken i),
      annual_rental_income i, (runState i).total_interest, (runState i).schedule⟩

/-! ### Basic lemmas about the loop -/

theorem simLoop_zero (r e rent annual : ℚ) (bound : ℕ) (s : SimState) :
    simLoop r e rent annual bound 0 s = s := rfl

theorem simStep_month (r e rent annual : ℚ) (s : SimState) :
    (simStep r e rent annual s).month = s.month + 1 := rfl

theorem simLoop_stop (r e rent annual : ℚ) (bound f : ℕ) (s : SimState)
    (h : ¬(s.outstanding > 0 ∧ s.month < bound)) :
    simLoop r e rent annual bound f s = s := by
  cases f with
  | zero => rfl
  | succ f => simp only [simLoop, if_neg h]

theorem simLoop_succ (r e rent annual : ℚ) (bound f : ℕ) (s : SimState)
    (h : s.outstanding > 0 ∧ s.month < bound) :
    simLoop r e rent annual bound (f + 1) s =
      simLoop r e rent annual bound f (simStep r e rent annual s) := by
  by_cases h2 : (simStep r e rent annual s).outstanding ≤ 0
  · have h3 : ¬((simStep r e rent annual s).outstanding > 0 ∧
        (simStep r e rent annual s).month < bound) := fun hc => absurd hc.1 (not_lt.2 h2)
    rw [simLoop_stop r e rent annual bound f (simStep r e rent annual s) h3]
    simp only [simLoop, if_pos h, if_pos h2]
  · simp only [simLoop, if_pos h, if_neg h2]

theorem simLoop_if (r e rent annual : ℚ) (bound f : ℕ) (s : SimState) :
    simLoop r e rent annual bound (f + 1) s =
      if s.outstanding > 0 ∧ s.month < bound
      then simLoop r e rent annual bound f (simStep r e rent annual s) else s := by
  by_cases h : s.outstanding > 0 ∧ s.month < bound
  · rw [if_pos h, simLoop_succ r e rent annual bound f s h]
  · rw [if_neg h, simLoop_stop r e rent annual bound (f + 1) s h]

theorem simLoop_snoc (r e rent annual : ℚ) (bound : ℕ) :
    ∀ (f : ℕ) (s : SimState),
      simLoop r e rent annual bound (f + 1) s =
        if (simLoop r e rent annual bound f s).outstanding > 0 ∧
            (simLoop r e rent annual bound f s).month < bound
        then simStep r e rent annual (simLoop r e rent annual bound f s)
        else simLoop r e rent annual bound f s := by
  intro f
  induction f with
  | zero =>
    intro s
    simp only [simLoop_if r e rent annual bound 0 s, simLoop_zero]
  | succ f ih =>
    intro s
    by_cases h : s.outstanding > 0 ∧ s.month < bound
    · rw [simLoop_succ r e rent annual bound (f + 1) s h,
        ih (simStep r e rent annual s),
        simLoop_succ r e rent annual bound f s h]
    · rw [simLoop_stop r e rent annual bound (f + 1 + 1) s h,
        simLoop_stop r e rent annual bound (f + 1) s h, if_neg h]

theorem simLoop_month_le (r e rent annual : ℚ) (bound : ℕ) :
    ∀ (f : ℕ) (s : SimState), s.month ≤ bound →
      (simLoop r e rent annual bound f s).month ≤ bound := by
  intro f
  induction f with
  | zero => intro s h; exact h
  | succ f ih =>
    intro s h
    by_cases hg : s.outstanding > 0 ∧ s.month < bound
    · rw [simLoop_succ r e rent annual bound f s hg]
      exact ih (simStep r e rent annual s) hg.2
    · rw [simLoop_stop r e rent annual bound (f + 1) s hg]; exact h

theorem simLoop_fuel_add (r e rent annual : ℚ) (bound : ℕ) :
    ∀ (f k : ℕ) (s : SimState), bound ≤ s.month + f →
      simLoop r e rent annual bound (f + k) s = simLoop r e rent annual bound f s := by
  intro f
  induction f with
  | zero =>
    intro k s h
    have h' : bound ≤ s.month := by simpa using h
    rw [Nat.zero_add, simLoop_stop r e rent annual bound k s
      (fun hc => absurd hc.2 (not_lt.2 h'))]
    rfl
  | succ f ih =>
    intro k s h
    by_cases hg : s.outstanding > 0 ∧ s.month < bound
    · have harith : f + 1 + k = (f + k) + 1 := by omega
      rw [harith, simLoop_succ r e rent annual bound (f + k) s hg,
        simLoop_succ r e rent annual bound f s hg]
      exact ih k (simStep r e rent annual s) (by rw [simStep_month]; omega)
    · rw [simLoop_stop r e rent annual bound (f + 1 + k) s hg,
        simLoop_stop r e rent annual bound (f + 1) s hg]

/-! ### Arithmetic helper lemmas -/

theorem loan_amount_nonneg (i : LoanInputs) (hpv : 0 ≤ i.property_value)
    (hdp : i.down_payment_pct ≤ 100) : 0 ≤ loan_amount i := by
  rw [loan_amount, down_payment]
  have h1 : i.down_payment_pct / 100 ≤ 1 := (div_le_one (by norm_num)).2 hdp
  have h2 : i.down_payment_pct / 100 * i.property_value ≤ 1 * i.property_value :=
    mul_le_mul_of_nonneg_right h1 hpv
  linarith

theorem round2_zero : round2 0 = 0 := by
  norm_num [round2, roundHalfEven]

theorem roundHalfEven_le (q : ℚ) (z : ℤ) (h : q ≤ (z : ℚ)) : roundHalfEven q ≤ z := by
  have hfl : ⌊q⌋ ≤ z := by
    calc ⌊q⌋ ≤ ⌊(z : ℚ)⌋ := Int.floor_le_floor h
    _ = z := Int.floor_intCast z
  have hplus : ¬(q - ⌊q⌋ < 1 / 2) → ⌊q⌋ + 1 ≤ z := by
    intro h1
    have hlt : (⌊q⌋ : ℚ) < q := by
      have h2 : (1 : ℚ) / 2 ≤ q - ⌊q⌋ := not_lt.1 h1
      linarith
    have : (⌊q⌋ : ℚ) < (z : ℚ) := lt_of_lt_of_le hlt h
    have : ⌊q⌋ < z := by exact_mod_cast this
    omega
  unfold roundHalfEven
  split_ifs with h1 h2 h3
  · exact hfl
  · exact hplus h1
  · exact hfl
  · exact hplus h1

theorem round2_le (q : ℚ) (z : ℤ) (h : q * 100 ≤ (z : ℚ)) : round2 q ≤ (z : ℚ) / 100 := by
  rw [round2]
  have hle : ((roundHalfEven (q * 100) : ℤ) : ℚ) ≤ (z : ℚ) := by
    exact_mod_cast roundHalfEven_le (q * 100) z h
  exact (div_le_div_iff_of_pos_right (by norm_num : (0 : ℚ) < 100)).2 hle

/-! ### Invariants of the balance recurrence -/

theorem simStep_out_mono (r e rent annual : ℚ) (s : SimState) (h0 : 0 ≤ s.outstanding)
    (he : s.outstanding * r ≤ e) :
    (simStep r e rent annual s).outstanding ≤ s.outstanding ∧
    0 ≤ (simStep r e rent annual s).outstanding := by
  unfold simStep
  dsimp only
  constructor
  · apply max_le _ h0
    split_ifs with h
    · linarith
    · linarith
  · exact le_max_right _ _

theorem simRun_bounds (i : LoanInputs) (hr : 0 ≤ monthly_interest_rate i)
    (hL : 0 ≤ loan_amount i) (he : loan_amount i * monthly_interest_rate i ≤ emi i) :
    ∀ k : ℕ, 0 ≤ (simRun i k).outstanding ∧ (simRun i k).outstanding ≤ loan_amount i := by
  intro k
  induction k with
  | zero => exact ⟨hL, le_rfl⟩
  | succ k ih =>
    have hfold : simLoop (monthly_interest_rate i) (emi i) (monthly_rent i)
        (annual_rental_income i) (tenure_months i * 2) k (initState i) = simRun i k := rfl
    have hsnoc := simLoop_snoc (monthly_interest_rate i) (emi i) (monthly_rent i)
      (annual_rental_income i) (tenure_months i * 2) k (initState i)
    rw [hfold] at hsnoc
    show 0 ≤ (simLoop (monthly_interest_rate i) (emi i) (monthly_rent i)
        (annual_rental_income i) (tenure_months i * 2) (k + 1) (initState i)).outstanding ∧
      (simLoop (monthly_interest_rate i) (emi i) (monthly_rent i)
        (annual_rental_income i) (tenure_months i * 2) (k + 1) (initState i)).outstanding ≤
        loan_amount i
    rw [hsnoc]
    by_cases hg : (simRun i k).outstanding > 0 ∧ (simRun i k).month < tenure_months i * 2
    · rw [if_pos hg]
      have hir : (simRun i k).outstanding * monthly_interest_rate i ≤ emi i :=
        le_trans (mul_le_mul_of_nonneg_right ih.2 hr) he
      have hstep := simStep_out_mono (monthly_interest_rate i) (emi i) (monthly_rent i)
        (annual_rental_income i) (simRun i k) ih.1 hir
      exact ⟨hstep.2, le_trans hstep.1 ih.2⟩
    · rw [if_neg hg]; exact ih

theorem simLoop_yield (r e rent annual : ℚ) (bound : ℕ) :
    ∀ (f : ℕ) (s : SimState), (∀ t ∈ s.schedule, t.annual_rental_yield = annual) →
      ∀ t ∈ (simLoop r e rent annual bound f s).schedule, t.annual_rental_yield = annual := by
  intro f
  induction f with
  | zero => intro s hs; exact hs
  | succ f ih =>
    intro s hs t htmem
    by_cases hg : s.outstanding > 0 ∧ s.month < bound
    · have hstep : ∀ u ∈ (simStep r e rent annual s).schedule, u.annual_rental_yield = annual := by
        intro u hu
        simp only [simStep] at hu
        by_cases h12 : (s.month + 1) % 12 = 0
        · rw [if_pos h12] at hu
          rcases List.mem_append.1 hu with h | h
          · exact hs u h
          · rw [List.mem_singleton.1 h]
        · rw [if_neg h12] at hu
          exact hs u hu
      rw [simLoop_succ r e rent annual bound f s hg] at htmem
      exact ih (simStep r e rent annual s) hstep t htmem
    · rw [simLoop_stop r e rent annual bound (f + 1) s hg] at htmem
      exact hs t htmem

/-! ### Claims -/

/-- C1: the claim says that for annualInterestRatePct = 0 the payment equals
loanAmount / tenureMonths via an explicit zero-rate threshold check.  The code
has no such branch: at `interest_rate = 0` the denominator
`(1 + r) ^ n - 1` of line 16 is exactly zero and the Python source raises
`ZeroDivisionError` instead of returning any payment.  This theorem shows that
for every input with zero interest rate the (modelled) engine yields no
result at all. -/
theorem c1_zero_rate_division_by_zero (i : LoanInputs) (h : i.interest_rate = 0) :
    loan_clearance_schedule i = none := by
  have hr : monthly_interest_rate i = 0 := by rw [monthly_interest_rate, h]; norm_num
  have hd : emiDenom i = 0 := by rw [emiDenom, hr]; norm_num
  rw [loan_clearance_schedule, if_pos hd]

/-- Witness for C1: a concrete zero-rate input on which the engine fails. -/
theorem c1_zero_rate_division_by_zero_witness :
    (⟨100, 0, 0, 1, 0⟩ : LoanInputs).interest_rate = 0 ∧
    loan_clearance_schedule ⟨100, 0, 0, 1, 0⟩ = none :=
  ⟨rfl, c1_zero_rate_division_by_zero ⟨100, 0, 0, 1, 0⟩ rfl⟩

/-- C9: `loan_clearance_schedule` is a pure function of its five inputs; two
invocations with identical inputs produce identical results.  (Side-effect
freedom holds by construction of the embedding: the source function reads
only its parameters and touches no global state.) -/
theorem c9_pure_deterministic (i j : LoanInputs) (h : i = j) :
    loan_clearance_schedule i = loan_clearance_schedule j := by rw [h]

/-- Witness for C9 at a concrete input. -/
theorem c9_pure_deterministic_witness :
    (⟨500, 20, 48, 20, 6⟩ : LoanInputs) = ⟨500, 20, 48, 20, 6⟩ ∧
    loan_clearance_schedule ⟨500, 20, 48, 20, 6⟩ =
      loan_clearance_schedule ⟨500, 20, 48, 20, 6⟩ :=
  ⟨rfl, c9_pure_deterministic ⟨500, 20, 48, 20, 6⟩ ⟨500, 20, 48, 20, 6⟩ rfl⟩

/-- C5: each loop iteration updates the state exactly as the claim states:
month is incremented; interest = outstanding × monthlyRate is added to
totalInterest; principal = payment − interest is subtracted from the balance;
surplus = monthlyRentalIncome − payment is then subtracted only when
surplus > 0; the balance is clamped to a minimum of 0; and the loop continues
exactly while the balance is positive and the month count is below the
horizon bound. -/
theorem c5_loop_body (r e rent annual : ℚ) (bound fuel : ℕ) (s : SimState) :
    (simStep r e rent annual s).month = s.month + 1 ∧
    (simStep r e rent annual s).total_interest = s.total_interest + s.outstanding * r ∧
    (simStep r e rent annual s).outstanding =
      max (s.outstanding - (e - s.outstanding * r) -
        (if rent - e > 0 then rent - e else 0)) 0 ∧
    simLoop r e rent annual bound (fuel + 1) s =
      if s.outstanding > 0 ∧ s.month < bound
      then simLoop r e rent annual bound fuel (simStep r e rent annual s) else s := by
  refine ⟨rfl, rfl, ?_, simLoop_if r e rent annual bound fuel s⟩
  simp only [simStep]
  split_ifs with h
  · rfl
  · rw [sub_zero]

/-- C3 counterexample: the claim says inputs violating a precondition are
rejected with an InvalidInput outcome before any simulation step runs.  The
code performs no validation: on the invalid input
annualInterestRatePct = −600 (< 0) the engine runs the full 12-month
simulation and returns an ordinary numeric result. -/
theorem c3_counterexample :
    (loan_clearance_schedule ⟨100, 0, -600, 1, 0⟩).isSome = true ∧
    (runState ⟨100, 0, -600, 1, 0⟩).month = 12 := by
  constructor
  · norm_num [loan_clearance_schedule, emiDenom, monthly_interest_rate, tenure_months]
  · norm_num [runState, simRun, simLoop, simStep, initState, emi, emiDenom, loan_amount,
      down_payment, monthly_interest_rate, tenure_months, monthly_rent, annual_rental_income]

/-- C3 amended: `loan_clearance_schedule` performs no precondition validation
at all; whenever the payment formula's denominator is nonzero it returns a
numeric result, whether or not the input satisfies the spec preconditions.
There is no InvalidInput outcome in the code. -/
theorem c3_no_input_validation (i : LoanInputs) (hx : emiDenom i ≠ 0) :
    (loan_clearance_schedule i).isSome = true := by
  rw [loan_clearance_schedule, if_neg hx]; rfl

/-- Witness for the amended C3: a numeric result is returned for an input
with downPaymentPct = 150, outside [0, 100]. -/
theorem c3_no_input_validation_witness :
    emiDenom ⟨100, 150, 1200, 1, 0⟩ ≠ 0 ∧
    (loan_clearance_schedule ⟨100, 150, 1200, 1, 0⟩).isSome = true := by
  have hx : emiDenom (⟨100, 150, 1200, 1, 0⟩ : LoanInputs) ≠ 0 := by
    norm_num [emiDenom, monthly_interest_rate, tenure_months]
  exact ⟨hx, c3_no_input_validation ⟨100, 150, 1200, 1, 0⟩ hx⟩

/-- C2 counterexample: the claim says that an input whose simulation reaches
the maxMonths horizon with a positive outstanding balance yields a distinct
HorizonExhausted outcome rather than a plain numeric yearsToClear equal to
maxMonths/12.  On the input (4095, 0%, −3600%, 1 year, −3600%) the balance
stays at 4095 every month, the loop exits with month = tenureMonths × 2 = 24
and balance 4095 > 0, and the engine returns the plain numeric answer
yearsToClear = 2 = maxMonths/12 — there is no distinct outcome. -/
theorem c2_counterexample :
    (runState ⟨4095, 0, -3600, 1, -3600⟩).month =
      tenure_months ⟨4095, 0, -3600, 1, -3600⟩ * 2 ∧
    (runState ⟨4095, 0, -3600, 1, -3600⟩).outstanding = 4095 ∧
    (loan_clearance_schedule ⟨4095, 0, -3600, 1, -3600⟩).map LoanResult.years_taken =
      some 2 := by
  refine ⟨?_, ?_, ?_⟩
  · norm_num [runState, simRun, simLoop, simStep, initState, emi, emiDenom, loan_amount,
      down_payment, monthly_interest_rate, tenure_months, monthly_rent, annual_rental_income]
  · norm_num [runState, simRun, simLoop, simStep, initState, emi, emiDenom, loan_amount,
      down_payment, monthly_interest_rate, tenure_months, monthly_rent, annual_rental_income]
  · norm_num [loan_clearance_schedule, years_taken, round2, roundHalfEven, Option.map,
      runState, simRun, simLoop, simStep, initState, emi, emiDenom, loan_amount,
      down_payment, monthly_interest_rate, tenure_months, monthly_rent, annual_rental_income]

/-- C2 amended: when the simulation exits because the month counter reached
the horizon bound `tenure_months * 2`, the engine reports nothing special: it
returns the same plain numeric record, whose yearsToClear field is the
rounded maxMonths/12.  Horizon exhaustion is indistinguishable, in the
returned type, from a normal clearance. -/
theorem c2_horizon_plain_numeric (i : LoanInputs) (hx : emiDenom i ≠ 0)
    (hm : (runState i).month = tenure_months i * 2) :
    (loan_clearance_schedule i).map LoanResult.years_taken =
      some (round2 (((tenure_months i * 2 : ℕ) : ℚ) / 12)) := by
  rw [loan_clearance_schedule, if_neg hx]
  show some (round2 (years_taken i)) = _
  rw [years_taken, hm]

/-- Witness for the amended C2 at the horizon-exhausting input. -/
theorem c2_horizon_plain_numeric_witness :
    emiDenom ⟨4095, 0, -3600, 1, -3600⟩ ≠ 0 ∧
    (runState ⟨4095, 0, -3600, 1, -3600⟩).month =
      tenure_months ⟨4095, 0, -3600, 1, -3600⟩ * 2 ∧
    (loan_clearance_schedule ⟨4095, 0, -3600, 1, -3600⟩).map LoanResult.years_taken =
      some (round2 (((tenure_months ⟨4095, 0, -3600, 1, -3600⟩ * 2 : ℕ) : ℚ) / 12)) := by
  have hx : emiDenom (⟨4095, 0, -3600, 1, -3600⟩ : LoanInputs) ≠ 0 := by
    norm_num [emiDenom, monthly_interest_rate, tenure_months]
  have hm : (runState ⟨4095, 0, -3600, 1, -3600⟩).month =
      tenure_months ⟨4095, 0, -3600, 1, -3600⟩ * 2 := by
    norm_num [runState, simRun, simLoop, simStep, initState, emi, emiDenom, loan_amount,
      down_payment, monthly_interest_rate, tenure_months, monthly_rent, annual_rental_income]
  exact ⟨hx, hm, c2_horizon_plain_numeric ⟨4095, 0, -3600, 1, -3600⟩ hx hm⟩

/-- C6 counterexample: the claim says the returned yearsToClear equals the
final month index divided by 12.  On the input (100, 0%, 1200%, 1 year,
14400%) the loan clears in the first month, so month/12 = 1/12; but the code
returns `round(month / 12, 2)` (line 49), i.e. 0.08 = 2/25 ≠ 1/12. -/
theorem c6_counterexample :
    (runState ⟨100, 0, 1200, 1, 14400⟩).month = 1 ∧
    (loan_clearance_schedule ⟨100, 0, 1200, 1, 14400⟩).map LoanResult.years_taken =
      some (2 / 25) ∧
    ((2 : ℚ) / 25) ≠ ((1 : ℚ) / 12) := by
  refine ⟨?_, ?_, by norm_num⟩
  · norm_num [runState, simRun, simLoop, simStep, initState, emi, emiDenom, loan_amount,
      down_payment, monthly_interest_rate, tenure_months, monthly_rent, annual_rental_income]
  · norm_num [loan_clearance_schedule, years_taken, round2, roundHalfEven, Option.map,
      runState, simRun, simLoop, simStep, initState, emi, emiDenom, loan_amount,
      down_payment, monthly_interest_rate, tenure_months, monthly_rent, annual_rental_income]

/-- C6 amended: the loop stops as soon as the clamped balance reaches 0 (a
state with non-positive balance is never iterated further, so the loop does
not continue to the next year boundary), and the returned yearsToClear equals
the final month index divided by 12 and then rounded to two decimal places
(the `round(years_taken, 2)` of line 49). -/
theorem c6_stop_and_rounded_years (i : LoanInputs) (f : ℕ) (s : SimState)
    (hs : s.outstanding ≤ 0) (hx : emiDenom i ≠ 0) :
    simLoop (monthly_interest_rate i) (emi i) (monthly_rent i) (annual_rental_income i)
      (tenure_months i * 2) f s = s ∧
    (loan_clearance_schedule i).map LoanResult.years_taken =
      some (round2 (((runState i).month : ℚ) / 12)) := by
  constructor
  · exact simLoop_stop (monthly_interest_rate i) (emi i) (monthly_rent i)
      (annual_rental_income i) (tenure_months i * 2) f s
      (fun hc => absurd hc.1 (not_lt.2 hs))
  · rw [loan_clearance_schedule, if_neg hx]
    rfl

/-- Witness for the amended C6 at a concrete input and cleared state. -/
theorem c6_stop_and_rounded_years_witness :
    (⟨0, 3, 0, []⟩ : SimState).outstanding ≤ 0 ∧
    emiDenom ⟨100, 0, 1200, 1, 14400⟩ ≠ 0 ∧
    (simLoop (monthly_interest_rate ⟨100, 0, 1200, 1, 14400⟩)
        (emi ⟨100, 0, 1200, 1, 14400⟩) (monthly_rent ⟨100, 0, 1200, 1, 14400⟩)
        (annual_rental_income ⟨100, 0, 1200, 1, 14400⟩)
        (tenure_months ⟨100, 0, 1200, 1, 14400⟩ * 2) 5 ⟨0, 3, 0, []⟩ = ⟨0, 3, 0, []⟩ ∧
      (loan_clearance_schedule ⟨100, 0, 1200, 1, 14400⟩).map LoanResult.years_taken =
        some (round2 (((runState ⟨100, 0, 1200, 1, 14400⟩).month : ℚ) / 12))) := by
  have hs : (⟨0, 3, 0, []⟩ : SimState).outstanding ≤ 0 := le_refl 0
  have hx : emiDenom (⟨100, 0, 1200, 1, 14400⟩ : LoanInputs) ≠ 0 := by
    norm_num [emiDenom, monthly_interest_rate, tenure_months]
  exact ⟨hs, hx, c6_stop_and_rounded_years ⟨100, 0, 1200, 1, 14400⟩ 5 ⟨0, 3, 0, []⟩ hs hx⟩

/-- C8 counterexample: the claim says every input with downPaymentPct = 100
yields loanAmount = 0, payment = 0, an empty snapshot sequence and
yearsToClear = 0.  But with downPaymentPct = 100 and annualInterestRatePct =
0 (a valid input per the spec) the payment formula's denominator is zero and
the code produces no result at all (Python raises `ZeroDivisionError`). -/
theorem c8_counterexample : loan_clearance_schedule ⟨100, 100, 0, 1, 0⟩ = none := by
  norm_num [loan_clearance_schedule, emiDenom, monthly_interest_rate, tenure_months]

/-- C8 amended: for every input with downPaymentPct = 100 on which the
payment formula is defined (nonzero denominator, e.g. any positive interest
rate), the engine yields loanAmount = 0, payment = 0, an empty snapshot
sequence and yearsToClear = 0, the loop exiting immediately at month 0. -/
theorem c8_full_down_payment (i : LoanInputs) (hdp : i.down_payment_pct = 100)
    (hx : emiDenom i ≠ 0) :
    loan_amount i = 0 ∧ (runState i).month = 0 ∧
    loan_clearance_schedule i =
      some ⟨0, 0, round2 (monthly_rent i), 0, annual_rental_income i, 0, []⟩ := by
  have hL : loan_amount i = 0 := by rw [loan_amount, down_payment, hdp]; ring
  have hrun : runState i = initState i := by
    have hng : ¬((initState i).outstanding > 0 ∧ (initState i).month < tenure_months i * 2) := by
      intro hc
      have h1 : (initState i).outstanding = loan_amount i := rfl
      rw [h1, hL] at hc
      exact lt_irrefl 0 hc.1
    exact simLoop_stop (monthly_interest_rate i) (emi i) (monthly_rent i)
      (annual_rental_income i) (tenure_months i * 2) (tenure_months i * 2) (initState i) hng
  have hemi : emi i = 0 := by rw [emi, hL]; simp
  have hy : years_taken i = 0 := by
    rw [years_taken, hrun]
    simp [initState]
  refine ⟨hL, by rw [hrun]; rfl, ?_⟩
  rw [loan_clearance_schedule, if_neg hx, hL, hemi, hy, round2_zero, hrun]
  rfl

/-- Witness for the amended C8 at downPaymentPct = 100 with a 12% rate. -/
theorem c8_full_down_payment_witness :
    (⟨100, 100, 12, 1, 0⟩ : LoanInputs).down_payment_pct = 100 ∧
    emiDenom ⟨100, 100, 12, 1, 0⟩ ≠ 0 ∧
    (loan_amount ⟨100, 100, 12, 1, 0⟩ = 0 ∧ (runState ⟨100, 100, 12, 1, 0⟩).month = 0 ∧
      loan_clearance_schedule ⟨100, 100, 12, 1, 0⟩ =
        some ⟨0, 0, round2 (monthly_rent ⟨100, 100, 12, 1, 0⟩), 0,
          annual_rental_income ⟨100, 100, 12, 1, 0⟩, 0, []⟩) := by
  have hx : emiDenom (⟨100, 100, 12, 1, 0⟩ : LoanInputs) ≠ 0 := by
    norm_num [emiDenom, monthly_interest_rate, tenure_months]
  exact ⟨rfl, hx, c8_full_down_payment ⟨100, 100, 12, 1, 0⟩ rfl hx⟩

/-- C4: for every valid input (positive property value, down payment at most
100%, nonnegative rate) whose computed payment is at least the first month's
interest (payment ≥ loanAmount × monthlyRate), the outstanding balance after
each simulated month is less than or equal to the balance before that month,
for every month of the simulation. -/
theorem c4_balance_monotone (i : LoanInputs) (k : ℕ) (hpv : 0 < i.property_value)
    (hdp : i.down_payment_pct ≤ 100) (hr : 0 ≤ i.interest_rate)
    (he : loan_amount i * monthly_interest_rate i ≤ emi i) :
    (simRun i (k + 1)).outstanding ≤ (simRun i k).outstanding := by
  have hr' : 0 ≤ monthly_interest_rate i := by
    rw [monthly_interest_rate]
    exact div_nonneg (div_nonneg hr (by norm_num)) (by norm_num)
  have hL : 0 ≤ loan_amount i := loan_amount_nonneg i (le_of_lt hpv) hdp
  have hb := simRun_bounds i hr' hL he k
  have hfold : simLoop (monthly_interest_rate i) (emi i) (monthly_rent i)
      (annual_rental_income i) (tenure_months i * 2) k (initState i) = simRun i k := rfl
  have hsnoc := simLoop_snoc (monthly_interest_rate i) (emi i) (monthly_rent i)
    (annual_rental_income i) (tenure_months i * 2) k (initState i)
  rw [hfold] at hsnoc
  show (simLoop (monthly_interest_rate i) (emi i) (monthly_rent i)
      (annual_rental_income i) (tenure_months i * 2) (k + 1) (initState i)).outstanding ≤
    (simRun i k).outstanding
  rw [hsnoc]
  by_cases hg : (simRun i k).outstanding > 0 ∧ (simRun i k).month < tenure_months i * 2
  · rw [if_pos hg]
    exact (simStep_out_mono (monthly_interest_rate i) (emi i) (monthly_rent i)
      (annual_rental_income i) (simRun i k) hb.1
      (le_trans (mul_le_mul_of_nonneg_right hb.2 hr') he)).1
  · rw [if_neg hg]

/-- Witness for C4: concrete input with payment above the first month's
interest; the balance after month 3 is at most the balance after month 2. -/
theorem c4_balance_monotone_witness :
    (0 : ℚ) < (⟨100, 0, 1200, 1, 0⟩ : LoanInputs).property_value ∧
    (⟨100, 0, 1200, 1, 0⟩ : LoanInputs).down_payment_pct ≤ 100 ∧
    (0 : ℚ) ≤ (⟨100, 0, 1200, 1, 0⟩ : LoanInputs).interest_rate ∧
    loan_amount ⟨100, 0, 1200, 1, 0⟩ * monthly_interest_rate ⟨100, 0, 1200, 1, 0⟩ ≤
      emi ⟨100, 0, 1200, 1, 0⟩ ∧
    (simRun ⟨100, 0, 1200, 1, 0⟩ 3).outstanding ≤ (simRun ⟨100, 0, 1200, 1, 0⟩ 2).outstanding := by
  have he : loan_amount (⟨100, 0, 1200, 1, 0⟩ : LoanInputs) *
      monthly_interest_rate ⟨100, 0, 1200, 1, 0⟩ ≤ emi ⟨100, 0, 1200, 1, 0⟩ := by
    norm_num [loan_amount, down_payment, monthly_interest_rate, emi, emiDenom, tenure_months]
  exact ⟨by norm_num, by norm_num, by norm_num, he,
    c4_balance_monotone ⟨100, 0, 1200, 1, 0⟩ 2 (by norm_num) (by norm_num) (by norm_num) he⟩

/-- C7: a yearly snapshot is appended in an iteration exactly when the new
month index is a multiple of 12 (so a final partial year appends nothing),
recording year = month / 12, the clamped post-iteration balance, and the
constant annualRentalIncome; and every snapshot in the final schedule carries
that same constant annualRentalYield. -/
theorem c7_yearly_snapshots (i : LoanInputs) (σ : SimState) (t : Snapshot)
    (ht : t ∈ (runState i).schedule) :
    (simStep (monthly_interest_rate i) (emi i) (monthly_rent i) (annual_rental_income i)
        σ).schedule =
      (if (σ.month + 1) % 12 = 0
       then σ.schedule ++ [⟨(σ.month + 1) / 12,
          (simStep (monthly_interest_rate i) (emi i) (monthly_rent i)
            (annual_rental_income i) σ).outstanding, annual_rental_income i⟩]
       else σ.schedule) ∧
    t.annual_rental_yield = annual_rental_income i := by
  constructor
  · rfl
  · have hbase : ∀ u ∈ (initState i).schedule, u.annual_rental_yield = annual_rental_income i := by
      intro u hu
      simp [initState] at hu
    exact simLoop_yield (monthly_interest_rate i) (emi i) (monthly_rent i)
      (annual_rental_income i) (tenure_months i * 2) (tenure_months i * 2) (initState i)
      hbase t ht

/-- Witness for C7: the 12-month run of (100, 0%, 1200%, 1 year, 0%) produces
the snapshot (year 1, balance 0, yield 0), whose yield is the constant
annual rental income. -/
theorem c7_yearly_snapshots_witness :
    (⟨1, 0, 0⟩ : Snapshot) ∈ (runState ⟨100, 0, 1200, 1, 0⟩).schedule ∧
    ((simStep (monthly_interest_rate ⟨100, 0, 1200, 1, 0⟩) (emi ⟨100, 0, 1200, 1, 0⟩)
        (monthly_rent ⟨100, 0, 1200, 1, 0⟩) (annual_rental_income ⟨100, 0, 1200, 1, 0⟩)
        ⟨7, 3, 0, []⟩).schedule =
      (if ((⟨7, 3, 0, []⟩ : SimState).month + 1) % 12 = 0
       then (⟨7, 3, 0, []⟩ : SimState).schedule ++
          [⟨((⟨7, 3, 0, []⟩ : SimState).month + 1) / 12,
            (simStep (monthly_interest_rate ⟨100, 0, 1200, 1, 0⟩) (emi ⟨100, 0, 1200, 1, 0⟩)
              (monthly_rent ⟨100, 0, 1200, 1, 0⟩) (annual_rental_income ⟨100, 0, 1200, 1, 0⟩)
              ⟨7, 3, 0, []⟩).outstanding, annual_rental_income ⟨100, 0, 1200, 1, 0⟩⟩]
       else (⟨7, 3, 0, []⟩ : SimState).schedule) ∧
      (⟨1, 0, 0⟩ : Snapshot).annual_rental_yield = annual_rental_income ⟨100, 0, 1200, 1, 0⟩) := by
  have ht : (⟨1, 0, 0⟩ : Snapshot) ∈ (runState ⟨100, 0, 1200, 1, 0⟩).schedule := by
    norm_num [runState, simRun, simLoop, simStep, initState, emi, emiDenom, loan_amount,
      down_payment, monthly_interest_rate, tenure_months, monthly_rent, annual_rental_income]
  exact ⟨ht, c7_yearly_snapshots ⟨100, 0, 1200, 1, 0⟩ ⟨7, 3, 0, []⟩ ⟨1, 0, 0⟩ ht⟩

/-- C10: with tenureYears ≥ 1 and a positive monthly rate (so the payment
formula is defined), the loop executes at most 2 × 12 × tenureYears
iterations (the final month count is bounded by the guard's
tenureMonths × 2, and extra fuel beyond that bound changes nothing), the
engine returns a result, and the returned yearsToClear never exceeds
2 × tenureYears. -/
theorem c10_terminates_within_bound (i : LoanInputs) (k : ℕ) (ht : 1 ≤ i.tenure_years)
    (hr : 0 < i.interest_rate) :
    (runState i).month ≤ 2 * (12 * i.tenure_years) ∧
    simRun i (tenure_months i * 2 + k) = runState i ∧
    (loan_clearance_schedule i).isSome = true ∧
    round2 (years_taken i) ≤ 2 * (i.tenure_years : ℚ) := by
  have hmonth : (runState i).month ≤ tenure_months i * 2 :=
    simLoop_month_le (monthly_interest_rate i) (emi i) (monthly_rent i)
      (annual_rental_income i) (tenure_months i * 2) (tenure_months i * 2) (initState i)
      (Nat.zero_le _)
  have hx : emiDenom i ≠ 0 := by
    have hr' : 0 < monthly_interest_rate i := by
      rw [monthly_interest_rate]
      positivity
    have hn : tenure_months i ≠ 0 := by rw [tenure_months]; omega
    have h1 : 1 < (1 + monthly_interest_rate i) ^ tenure_months i :=
      one_lt_pow₀ (by linarith) hn
    rw [emiDenom]
    intro hc
    rw [sub_eq_zero] at hc
    rw [hc] at h1
    exact lt_irrefl 1 h1
  refine ⟨?_, ?_, ?_, ?_⟩
  · rw [tenure_months] at hmonth
    omega
  · exact simLoop_fuel_add (monthly_interest_rate i) (emi i) (monthly_rent i)
      (annual_rental_income i) (tenure_months i * 2) (tenure_months i * 2) k (initState i)
      (by simp [initState])
  · rw [loan_clearance_schedule, if_neg hx]
    rfl
  · have hm24n : (runState i).month ≤ 24 * i.tenure_years := by
      rw [tenure_months] at hmonth
      omega
    have hm24 : ((runState i).month : ℚ) ≤ 24 * (i.tenure_years : ℚ) := by
      exact_mod_cast hm24n
    have hcond : years_taken i * 100 ≤ ((200 * (i.tenure_years : ℤ) : ℤ) : ℚ) := by
      rw [years_taken]
      push_cast
      rw [div_mul_eq_mul_div, div_le_iff₀ (by norm_num : (0 : ℚ) < 12)]
      linarith
    have h2 := round2_le (years_taken i) (200 * (i.tenure_years : ℤ)) hcond
    calc round2 (years_taken i) ≤ ((200 * (i.tenure_years : ℤ) : ℤ) : ℚ) / 100 := h2
      _ = 2 * (i.tenure_years : ℚ) := by push_cast; ring

/-- Witness for C10 at a concrete one-year, 1200%-rate input, with 7 units of
extra fuel. -/
theorem c10_terminates_within_bound_witness :
    1 ≤ (⟨100, 0, 1200, 1, 0⟩ : LoanInputs).tenure_years ∧
    (0 : ℚ) < (⟨100, 0, 1200, 1, 0⟩ : LoanInputs).interest_rate ∧
    ((runState ⟨100, 0, 1200, 1, 0⟩).month ≤
        2 * (12 * (⟨100, 0, 1200, 1, 0⟩ : LoanInputs).tenure_years) ∧
      simRun ⟨100, 0, 1200, 1, 0⟩ (tenure_months ⟨100, 0, 1200, 1, 0⟩ * 2 + 7) =
        runState ⟨100, 0, 1200, 1, 0⟩ ∧
      (loan_clearance_schedule ⟨100, 0, 1200, 1, 0⟩).isSome = true ∧
      round2 (years_taken ⟨100, 0, 1200, 1, 0⟩) ≤
        2 * ((⟨100, 0, 1200, 1, 0⟩ : LoanInputs).tenure_years : ℚ)) :=
  ⟨by norm_num, by norm_num,
    c10_terminates_within_bound ⟨100, 0, 1200, 1, 0⟩ 7 (by norm_num) (by norm_num)⟩

end RentalLoan
